import Mathlib

/-!
Shallow embedding of the caching audio proxy in `src/main.py`.

The embedding covers the parts of the program the claims are about:
  * the database-lookup section of `get_now_playing` (lines 256-280),
  * the two-caller interleaving of the read / insert-or-update
    steps on a shared row (the "at-most-once dispatch" race),
  * `cleanup_cache` (lines 119-173), including its connection handling,
  * the validation section of `get_streamable_track` (lines 315-322),
  * `stream_track` (lines 340-382): the path-containment check, the
    `re.search`-based Range parsing and the partial-content response.

Conventions: machine files are lists of bytes (`List Nat`); the database
row for one `search_query` is `Option TrackRecord`; the Python value None for a
missing header is `Option`; the `re` regex `bytes=(\d+)-(\d*)` is modelled
by an executable leftmost-match scanner over `List Char`.
-/

namespace AudioProxy

/-- The `status` column of the `tracks` table: the CHECK constraint allows
exactly `caching`, `cached`, `error` (spec section 6.6). -/
inductive TrackStatus where
  | caching
  | cached
  | error
deriving DecidableEq, Repr

/-- The part of a `tracks` row that `get_now_playing` reads:
`SELECT file_name, status FROM tracks WHERE search_query = %s`
(src/main.py line 258). `fileName = none` models SQL NULL. -/
structure TrackRecord where
  status : TrackStatus
  fileName : Option String
deriving DecidableEq, Repr

/-- The observable outcome of the database section of `get_now_playing`
(src/main.py lines 256-280) for one query: the `status` field put into the
JSON response, the row after the writes of the handler, and whether a
`download_and_cache_track` thread (a Fetcher) was started. -/
structure LookupResult where
  respStatus : TrackStatus
  newDb : Option TrackRecord
  dispatched : Bool
deriving DecidableEq, Repr

/-- Whether the artifact of the `cached` row is missing, as computed at
src/main.py lines 261-265: status is `cached` and the `file_name` is NULL
(falsy) or the file is absent from the music directory. `disk` is the set
of file names present in the music directory. -/
def fileIsMissing (record : Option TrackRecord) (disk : List String) : Bool :=
  match record with
  | none => false
  | some r =>
    r.status = TrackStatus.cached &&
      (match r.fileName with
       | none => true
       | some fn => !(disk.contains fn))

/-- The database section of `get_now_playing` (src/main.py lines 256-280),
run without interference: read the row; if there is no row or the cached
file is missing, write (UPDATE to `caching` with `file_name = NULL`, or
INSERT `caching` ON CONFLICT DO NOTHING), start a Fetcher and report
`caching`; otherwise report the status of the row and start nothing. -/
def get_now_playing_db (record : Option TrackRecord) (disk : List String) :
    LookupResult :=
  let missing := fileIsMissing record disk
  match record, missing with
  | none, _ =>
    -- INSERT ... ON CONFLICT (search_query) DO NOTHING; row was absent,
    -- so sequentially the insert lands; then the download thread starts.
    { respStatus := TrackStatus.caching
      newDb := some { status := TrackStatus.caching, fileName := none }
      dispatched := true }
  | some _, true =>
    -- UPDATE tracks SET status = caching, file_name = NULL
    { respStatus := TrackStatus.caching
      newDb := some { status := TrackStatus.caching, fileName := none }
      dispatched := true }
  | some r, false =>
    { respStatus := r.status
      newDb := some r
      dispatched := false }

end AudioProxy

namespace AudioProxy

/-! ## The two-caller dispatch race

`get_now_playing` reaches the database in two separate round trips: the
SELECT at line 258 and, when no row was found, the INSERT at line 273.
Two concurrent requests for the same novel query interleave at these
suspension points.  Each caller is modelled as a two-step program over the
shared row: step 1 reads the row, step 2 acts on what was read exactly as
the code does — when the read saw no row, it executes the INSERT ... ON
CONFLICT DO NOTHING and then starts a Fetcher unconditionally (the code
never inspects whether the INSERT inserted); when the read saw a row that
is not a missing-file cached row, it does not dispatch. -/

/-- Local state of one caller in the race model. `phase 0`: has not read
yet; `phase 1`: has read (`seen` holds the SELECT result); `phase 2`:
finished. -/
structure CallerState where
  phase : Nat
  seen : Option TrackRecord
  dispatched : Bool
deriving DecidableEq, Repr

/-- Shared-plus-local state of the two racing first lookups of one novel
query (the disk is irrelevant on this path and omitted: a novel query has
no `cached` row). -/
structure RaceState where
  db : Option TrackRecord
  c0 : CallerState
  c1 : CallerState
deriving DecidableEq, Repr

/-- Initial race state: no row for the query, neither caller has run. -/
def raceInit : RaceState :=
  { db := none
    c0 := { phase := 0, seen := none, dispatched := false }
    c1 := { phase := 0, seen := none, dispatched := false } }

/-- One atomic step of one caller against the shared row, following
src/main.py lines 256-276 on the no-`cached`-row path: the read
(line 258), then the action chosen from what was read — the INSERT ON
CONFLICT DO NOTHING (line 273, which leaves an existing row untouched)
followed unconditionally by the Fetcher dispatch (lines 275-276) when the
read returned no row, and no dispatch otherwise (line 278). A finished
caller steps to itself. -/
def callerStep (db : Option TrackRecord) (c : CallerState) :
    Option TrackRecord × CallerState :=
  if c.phase = 0 then
    (db, { c with phase := 1, seen := db })
  else if c.phase = 1 then
    match c.seen with
    | none =>
      -- INSERT ... ON CONFLICT DO NOTHING, then dispatch regardless.
      let db' := match db with
        | none => some { status := TrackStatus.caching, fileName := none }
        | some r => some r
      (db', { c with phase := 2, dispatched := true })
    | some _ =>
      -- a row was seen (here necessarily `caching`): return it, no dispatch.
      (db, { c with phase := 2 })
  else
    (db, c)

/-- Run one scheduled step: `false` steps caller 0, `true` steps caller 1. -/
def raceStep (s : RaceState) (who : Bool) : RaceState :=
  if who then
    let (db', c') := callerStep s.db s.c1
    { s with db := db', c1 := c' }
  else
    let (db', c') := callerStep s.db s.c0
    { s with db := db', c0 := c' }

/-- Run a whole schedule from the initial race state. -/
def raceRun (sched : List Bool) : RaceState :=
  sched.foldl raceStep raceInit

/-- Number of Fetchers dispatched by the two racing lookups. -/
def dispatchCount (sched : List Bool) : Nat :=
  let s := raceRun sched
  (if s.c0.dispatched then 1 else 0) + (if s.c1.dispatched then 1 else 0)

/-- A four-step schedule is complete when each caller is scheduled twice
(the program of each caller has exactly two effective steps). -/
def completeSchedule (sched : List Bool) : Prop :=
  sched.length = 4 ∧ sched.count false = 2 ∧ sched.count true = 2

instance (sched : List Bool) : Decidable (completeSchedule sched) := by
  unfold completeSchedule; infer_instance

end AudioProxy

namespace AudioProxy

/-! ## The eviction sweep `cleanup_cache` (src/main.py lines 119-173)

The music directory is a list of (file name, byte size) pairs; the
`tracks` table is a list of `EvictRow`.  `last_accessed_at` timestamps are
naturals. -/

/-- `CACHE_LIMIT_BYTES = 3 * 1024 * 1024 * 1024` (src/main.py line 58). -/
def CACHE_LIMIT_BYTES : Nat := 3 * 1024 * 1024 * 1024

/-- `CACHE_TARGET_BYTES = 2.5 * 1024 * 1024 * 1024` (src/main.py line 59).
In the source this is the Python float `2684354560.0`; it is an integer
value, and all arithmetic the code does with it stays exact in a double,
so it embeds as the natural 2684354560. -/
def CACHE_TARGET_BYTES : Nat := 2684354560

/-- The columns of a `tracks` row that `cleanup_cache` touches. -/
structure EvictRow where
  fileName : Option String
  status : TrackStatus
  lastAccessedAt : Nat
deriving DecidableEq, Repr

/-- Total byte size of the music directory: the sum at src/main.py
line 126. -/
def totalSize (disk : List (String × Nat)) : Nat :=
  (disk.map Prod.snd).sum

/-- `os.path.getsize` for a file that may or may not exist: the size of
the first directory entry with the given name. -/
def findSize (disk : List (String × Nat)) (fn : String) : Option Nat :=
  match disk with
  | [] => none
  | e :: rest => if e.1 == fn then some e.2 else findSize rest fn

/-- `os.remove`: drop the first directory entry with the given name. -/
def removeFile (disk : List (String × Nat)) (fn : String) :
    List (String × Nat) :=
  match disk with
  | [] => []
  | e :: rest => if e.1 == fn then rest else e :: removeFile rest fn

/-- Insert one row into a list that is sorted by ascending
`last_accessed_at`. -/
def insertByLastAccessed (r : EvictRow) : List EvictRow → List EvictRow
  | [] => [r]
  | x :: xs =>
    if r.lastAccessedAt ≤ x.lastAccessedAt then r :: x :: xs
    else x :: insertByLastAccessed r xs

/-- Sort rows by ascending `last_accessed_at` (insertion sort; SQL leaves
the order of ties unspecified, and no claim depends on ties). -/
def sortByLastAccessed : List EvictRow → List EvictRow
  | [] => []
  | x :: xs => insertByLastAccessed x (sortByLastAccessed xs)

/-- The victim list of the sweep: `SELECT file_name FROM tracks WHERE
status = cached ORDER BY last_accessed_at ASC` (src/main.py line 140). -/
def victimList (rows : List EvictRow) : List (Option String) :=
  (sortByLastAccessed (rows.filter
    (fun r => r.status == TrackStatus.cached))).map EvictRow.fileName

/-- The deletion loop of `cleanup_cache` (src/main.py lines 143-165): for
each victim, stop once `deleted_bytes_total >= bytes_to_delete`; skip a
NULL `file_name` (line 148); skip a file that is not on disk (line 151);
otherwise remove the file, delete every row carrying that `file_name`
(line 157) and add its size to the running total. -/
def cleanupLoop (victims : List (Option String)) (disk : List (String × Nat))
    (rows : List EvictRow) (deleted : Nat) (need : Nat) :
    List (String × Nat) × List EvictRow × Nat :=
  match victims with
  | [] => (disk, rows, deleted)
  | v :: rest =>
    if need ≤ deleted then (disk, rows, deleted)
    else
      match v with
      | none => cleanupLoop rest disk rows deleted need
      | some fn =>
        match findSize disk fn with
        | none => cleanupLoop rest disk rows deleted need
        | some sz =>
          cleanupLoop rest (removeFile disk fn)
            (rows.filter (fun r => r.fileName != some fn))
            (deleted + sz) need

/-- `cleanup_cache` (src/main.py lines 119-173), lock handling aside: if
the directory total is at most the limit, return unchanged (line 128 uses
`<=`); otherwise run the deletion loop over the victim list with
`bytes_to_delete = total_size - CACHE_TARGET_BYTES` (line 134). Returns
the directory and table after the sweep. -/
def cleanup_cache (disk : List (String × Nat)) (rows : List EvictRow) :
    List (String × Nat) × List EvictRow :=
  let total := totalSize disk
  if total ≤ CACHE_LIMIT_BYTES then (disk, rows)
  else
    let res :=
      cleanupLoop (victimList rows) disk rows 0 (total - CACHE_TARGET_BYTES)
    (res.1, res.2.1)

/-- Connection accounting of one `cleanup_cache` call. `connDrawn`: the
call executed `get_db_connection()` (line 138). `connReturned`: the call
executed `return_db_connection(conn)` (line 168). -/
structure CleanupRun where
  disk : List (String × Nat)
  rows : List EvictRow
  connDrawn : Bool
  connReturned : Bool
deriving DecidableEq, Repr

/-- `cleanup_cache` with its pool traffic made explicit, and with a fault
flag: `selectRaises = true` means the SELECT at line 140 raises a database
error. Control then jumps from line 140 to the `except` at line 170,
which only logs; `return_db_connection` at line 168 is on the straight
path, not in a `finally`, so it is skipped. Below the limit no connection
is drawn at all (the early return at line 130 precedes line 138). -/
def cleanup_cache_run (selectRaises : Bool) (disk : List (String × Nat))
    (rows : List EvictRow) : CleanupRun :=
  let total := totalSize disk
  if total ≤ CACHE_LIMIT_BYTES then
    { disk := disk, rows := rows, connDrawn := false, connReturned := false }
  else if selectRaises then
    { disk := disk, rows := rows, connDrawn := true, connReturned := false }
  else
    let res :=
      cleanupLoop (victimList rows) disk rows 0 (total - CACHE_TARGET_BYTES)
    { disk := res.1, rows := res.2.1, connDrawn := true, connReturned := true }

/-- Bytes the deletion loop could free if it never stopped early: the sum
of the on-disk sizes of the victim files, walked in victim order with the
same skip rules and the same file removal as the loop itself. -/
def availableBytes (victims : List (Option String))
    (disk : List (String × Nat)) : Nat :=
  match victims with
  | [] => 0
  | none :: rest => availableBytes rest disk
  | some fn :: rest =>
    match findSize disk fn with
    | none => availableBytes rest disk
    | some sz => sz + availableBytes rest (removeFile disk fn)

end AudioProxy

namespace AudioProxy

/-! ## Payload validation of `get_streamable_track` (src/main.py 315-323)

A JSON scalar; objects and arrays never appear in the claims and are not
needed to settle them, but `jnum`, `jbool`, `jnull` witness the non-string
cases. A request body is `none` when the content type is not JSON, and
otherwise a JSON object given as a key/value list. -/

inductive JVal where
  | jstr (s : String)
  | jnum (n : Int)
  | jbool (b : Bool)
  | jnull
deriving DecidableEq, Repr

/-- Python `data.get(key)`: the value under `key`, or None (`jnull`) when
the key is absent. -/
def jsonGet (data : List (String × JVal)) (key : String) : JVal :=
  match data.find? (fun e => e.1 == key) with
  | some e => e.2
  | none => JVal.jnull

/-- Observable outcome of the validation section of
`get_streamable_track`. `attrError` is an uncaught `AttributeError`
propagating out of the handler, which Flask turns into a 500 response. -/
inductive PlayOutcome where
  | resp415
  | resp400
  | attrError
  | proceed (searchQuery : List Char)
deriving DecidableEq, Repr

/-- The characters Python `str.strip()` removes by default (the ASCII
whitespace; the claims involve no exotic Unicode whitespace). -/
def isSpaceChar (c : Char) : Bool :=
  c == ' ' || c == '\t' || c == '\n' || c == '\r' || c == '\x0b' || c == '\x0c'

/-- Python `str.strip()`: drop whitespace from both ends. -/
def pyStrip (cs : List Char) : List Char :=
  ((cs.dropWhile isSpaceChar).reverse.dropWhile isSpaceChar).reverse

/-- Python `str.lower()` on the ASCII range (the claims use ASCII). -/
def lowerChar (c : Char) : Char :=
  if 'A' ≤ c && c ≤ 'Z' then Char.ofNat (c.toNat + 32) else c

/-- Python `str.lower()` over a whole string. -/
def pyLower (cs : List Char) : List Char := cs.map lowerChar

/-- Lines 318-323 of src/main.py. Line 321 builds the Python list
`[isinstance(song_name, str), isinstance(artist, str), song_name.strip(),
artist.strip()]` eagerly, before `all` runs, so `.strip()` is evaluated
even when the `isinstance` test already failed: on a missing field
(`data.get` returned None) or any non-string value it raises
`AttributeError`. Only when both values are strings does the check reach
`all`, which then fails (400) exactly when a stripped value is empty.
On success line 323 builds the canonical query
`artist.lower().strip() + " - " + song_name.lower().strip()`. -/
def get_streamable_track_validate
    (body : Option (List (String × JVal))) : PlayOutcome :=
  match body with
  | none => PlayOutcome.resp415
  | some data =>
    match jsonGet data "song_name", jsonGet data "artist" with
    | JVal.jstr s, JVal.jstr a =>
      if pyStrip s.data = [] ∨ pyStrip a.data = [] then PlayOutcome.resp400
      else PlayOutcome.proceed
        (pyStrip (pyLower a.data) ++ " - ".data ++ pyStrip (pyLower s.data))
    | _, _ => PlayOutcome.attrError

/-- The HTTP status the validation section alone determines: `none` means
validation passed and the handler goes on to the database. -/
def playEarlyStatus (body : Option (List (String × JVal))) : Option Nat :=
  match get_streamable_track_validate body with
  | PlayOutcome.resp415 => some 415
  | PlayOutcome.resp400 => some 400
  | PlayOutcome.attrError => some 500
  | PlayOutcome.proceed _ => none

end AudioProxy

namespace AudioProxy

/-! ## `stream_track` (src/main.py lines 340-382)

### Path containment (lines 343-345)

`MUSIC_DIRECTORY` is an absolute path with no trailing separator; it is
modelled as its component list.  The Flask route `<string:file_name>`
matches one non-empty path segment, so `file_name` reaches the handler
only when it is non-empty and contains no `/`.  For such a name,
`os.path.abspath(os.path.join(MUSIC_DIRECTORY, name))` normalises the
single appended component: a lone `.` disappears, a lone `..` pops the
last directory, anything else is appended. -/

/-- Component list of `MUSIC_DIRECTORY` (src/main.py line 53); the app
lives at `/app/src/main.py`, so the directory is `/app/src/music`. Which
concrete absolute prefix is used is immaterial to every theorem below. -/
def musicDirComps : List String := ["app", "src", "music"]

/-- Render an absolute path from its components: `/a/b/c`. -/
def renderAbs (comps : List String) : String :=
  comps.foldl (fun acc c => acc ++ "/" ++ c) ""

/-- `os.path.abspath(os.path.join(MUSIC_DIRECTORY, name))` for a
separator-free `name`, as a component list. -/
def resolvedComps (name : String) : List String :=
  if name = "." then musicDirComps
  else if name = ".." then musicDirComps.dropLast
  else musicDirComps ++ [name]

/-- Python `str.startswith`, on character lists: `charPrefix p s` is true
when `s` starts with `p`. -/
def charPrefix : List Char → List Char → Bool
  | [], _ => true
  | _ :: _, [] => false
  | p :: ps, s :: ss => p == s && charPrefix ps ss

/-- The guard at src/main.py lines 344-345: abort with 403 exactly when
the resolved absolute path does not start (as a string) with the absolute
music-directory path. -/
def stream_track_rejects (name : String) : Bool :=
  !(charPrefix (renderAbs musicDirComps).data
      (renderAbs (resolvedComps name)).data)

/-- The Flask route `<string:file_name>` (src/main.py line 340): one
non-empty path segment, hence no `/` in the name. -/
def routeAccepts (name : String) : Bool :=
  name ≠ "" && !(name.data.contains '/')

/-- Strict descendant, on component lists: `base` is a proper ancestor of
`p`. -/
def strictDescendant (p base : List String) : Bool :=
  base.isPrefixOf p && p != base

/-! ### Range handling (lines 363-382) -/

/-- ASCII decimal digit, the characters `\d` matches on these headers. -/
def isDigitChar (c : Char) : Bool := '0' ≤ c && c ≤ '9'

/-- Numeric value of a digit string, as Python `int` reads it. -/
def digitsToNat (ds : List Char) : Nat :=
  ds.foldl (fun n c => 10 * n + (c.toNat - '0'.toNat)) 0

/-- Match the regex `bytes=(\d+)-(\d*)` anchored at the head of `s`:
the literal `bytes=`, then a maximal non-empty digit run (group 1), then
`-`, then a maximal (possibly empty) digit run (group 2).  Greedy maximal
munch is exact here because after `(\d+)` the regex requires `-`, which no
digit can satisfy, and `(\d*)` is the last constraint.  An empty group 2
is the falsy `''`, reported as `none`. -/
def matchBytesAt (s : List Char) : Option (Nat × Option Nat) :=
  if charPrefix "bytes=".data s then
    let rest := (s.drop 6).span isDigitChar
    match rest with
    | (ds, rest1) =>
      if ds.isEmpty then none
      else
        match rest1 with
        | '-' :: rest2 =>
          let es := (rest2.span isDigitChar).1
          some (digitsToNat ds,
            if es.isEmpty then none else some (digitsToNat es))
        | _ => none
  else none

/-- `re.search(r'bytes=(\d+)-(\d*)', header)` (src/main.py line 367):
try the anchored match at each position from the left; the first success
wins. -/
def searchBytesRange : List Char → Option (Nat × Option Nat)
  | [] => none
  | c :: rest =>
    match matchBytesAt (c :: rest) with
    | some r => some r
    | none => searchBytesRange rest

/-- Python `f.seek(start); f.read(length)` on a file of bytes: a negative
length reads to end of file, a non-negative one reads at most `length`
bytes. -/
def pyRead (bytesLeft : List Nat) (length : Int) : List Nat :=
  if length < 0 then bytesLeft else bytesLeft.take length.toNat

/-- The observable response of `stream_track` once the file exists:
status code, body bytes, and the `Content-Length`, `Content-Range` (as
the `(start, end, size)` the code interpolates into
`bytes start-end/size`) and `Accept-Ranges: bytes` headers the code sets
itself. -/
structure StreamResponse where
  status : Nat
  body : List Nat
  contentLength : Option Int
  contentRange : Option (Int × Int × Int)
  acceptRanges : Bool
deriving DecidableEq, Repr

/-- `send_file(music_file_path, mimetype='audio/opus')` at src/main.py
line 365: a full 200 whose `Content-Length` Flask sets to the file
size. -/
def send_file (file : List Nat) : StreamResponse :=
  { status := 200, body := file, contentLength := some (file.length : Int),
    contentRange := none, acceptRanges := false }

/-- Lines 363-382 of src/main.py, for an existing artifact `file`.
Line 364 tests `if not range_header:` — a falsiness test, so both a
missing header (`None`) and a present-but-empty one (`""`) take the
`send_file` 200 path.  Otherwise `start, end = 0, file_size - 1`,
overridden by the regex groups when the search succeeds (an empty
group 2 leaves the default `end`); `start >= file_size or
end >= file_size` aborts with 416; otherwise a 206 whose body is
`f.seek(start); f.read(end - start + 1)` and whose headers are set at
lines 379-381. -/
def stream_track (file : List Nat) (rangeHeader : Option String) :
    StreamResponse :=
  let fileSize : Int := file.length
  match rangeHeader with
  | none => send_file file
  | some h =>
    if h = "" then send_file file
    else
    let parsed := searchBytesRange h.data
    let start : Int :=
      match parsed with
      | some (s, _) => s
      | none => 0
    let endPos : Int :=
      match parsed with
      | some (_, some e) => e
      | some (_, none) => fileSize - 1
      | none => fileSize - 1
    if fileSize ≤ start ∨ fileSize ≤ endPos then
      { status := 416, body := [], contentLength := none,
        contentRange := none, acceptRanges := false }
    else
      let length : Int := endPos - start + 1
      { status := 206
        body := pyRead (file.drop start.toNat) length
        contentLength := some length
        contentRange := some (start, endPos, fileSize)
        acceptRanges := true }

end AudioProxy

namespace AudioProxy

/-! ## Helper lemmas -/

/-- A character list starts with itself extended by anything. -/
theorem charPrefix_append (p q : List Char) : charPrefix p (p ++ q) = true := by
  induction p with
  | nil => rfl
  | cons c cs ih => simp [charPrefix, ih]

/-- Removing a file that `findSize` located lowers the directory total by
exactly its size. -/
theorem totalSize_removeFile (disk : List (String × Nat)) (fn : String) (sz : Nat)
    (h : findSize disk fn = some sz) :
    totalSize (removeFile disk fn) + sz = totalSize disk := by
  induction disk with
  | nil => simp [findSize] at h
  | cons e rest ih =>
    by_cases he : e.1 == fn
    · simp [findSize, he] at h
      subst h
      simp [removeFile, he, totalSize]
      omega
    · simp [findSize, he] at h
      simp [removeFile, he, totalSize] at ih ⊢
      have := ih h
      omega

/-- Invariant of the deletion loop: bytes only move from the directory
total to the deleted counter, and the loop stops only once it has either
met its quota or consumed every available victim byte. -/
theorem cleanupLoop_spec (victims : List (Option String)) :
    ∀ (disk : List (String × Nat)) (rows : List EvictRow) (deleted need : Nat),
    totalSize (cleanupLoop victims disk rows deleted need).1
        + (cleanupLoop victims disk rows deleted need).2.2
      = totalSize disk + deleted
    ∧ (need ≤ (cleanupLoop victims disk rows deleted need).2.2
       ∨ (cleanupLoop victims disk rows deleted need).2.2
           = deleted + availableBytes victims disk) := by
  induction victims with
  | nil =>
    intro disk rows deleted need
    simp [cleanupLoop, availableBytes]
  | cons v rest ih =>
    intro disk rows deleted need
    by_cases hstop : need ≤ deleted
    · simp [cleanupLoop, hstop]
    · cases v with
      | none =>
        simpa [cleanupLoop, hstop, availableBytes] using ih disk rows deleted need
      | some fn =>
        cases hf : findSize disk fn with
        | none =>
          simpa [cleanupLoop, hstop, hf, availableBytes] using ih disk rows deleted need
        | some sz =>
          have hrm := totalSize_removeFile disk fn sz hf
          have hih := ih (removeFile disk fn)
            (rows.filter (fun r => r.fileName != some fn)) (deleted + sz) need
          have h1 := hih.1
          have h2 := hih.2
          simp only [cleanupLoop, hf, availableBytes]
          rw [if_neg hstop]
          constructor
          · omega
          · rcases h2 with h | h
            · exact Or.inl h
            · exact Or.inr (by omega)

/-! ## Claim C1 — at-most-once Fetcher dispatch -/

/-- Claim C1, counterexample: in the schedule where both concurrent first
lookups of a novel query run their SELECT before either runs its INSERT,
both observe no row and both dispatch a Fetcher — two dispatches for one
novel query, not exactly one.  The code at src/main.py lines 267-276
never checks whether its INSERT newly inserted the row. -/
theorem race_double_dispatch_cex :
    completeSchedule [false, true, false, true] ∧
    dispatchCount [false, true, false, true] = 2 := by decide

/-- Claim C1 as amended: a lookup that finds no record always dispatches
after its insert-if-absent, so every complete interleaving of two
concurrent first lookups of a novel query dispatches at least one and at
most two Fetchers — at-least-once, not exactly-once. -/
theorem novel_query_dispatch_at_least_once (a b c d : Bool)
    (hc : completeSchedule [a, b, c, d]) :
    1 ≤ dispatchCount [a, b, c, d] ∧ dispatchCount [a, b, c, d] ≤ 2 := by
  revert a b c d
  decide

/-- Witness for `novel_query_dispatch_at_least_once` at the sequential
schedule. -/
theorem novel_query_dispatch_at_least_once_witness :
    1 ≤ dispatchCount [false, false, true, true] ∧
    dispatchCount [false, false, true, true] ≤ 2 :=
  novel_query_dispatch_at_least_once false false true true (by decide)

/-! ## Claim C2 — error retry on lookup -/

/-- Claim C2, counterexample: a lookup that finds a row with status
`error` does not restart caching.  It returns response status `error` (not
`caching`), leaves the row as it is, and dispatches no Fetcher: the
condition at src/main.py line 267 is false for an `error` row, so the
handler falls into the `else` at line 277. -/
theorem error_row_sticky_cex :
    get_now_playing_db (some { status := TrackStatus.error, fileName := none }) [] =
      { respStatus := TrackStatus.error,
        newDb := some { status := TrackStatus.error, fileName := none },
        dispatched := false } := by decide

/-- Claim C2 as amended: `error` is sticky.  For every record with status
`error`, lookup returns status `error`, performs no write and dispatches
nothing. -/
theorem error_row_lookup_returns_error (r : TrackRecord) (disk : List String)
    (hr : r.status = TrackStatus.error) :
    get_now_playing_db (some r) disk =
      { respStatus := TrackStatus.error, newDb := some r, dispatched := false } := by
  have hm : fileIsMissing (some r) disk = false := by
    simp [fileIsMissing, hr]
  simp [get_now_playing_db, hm, hr]

/-- Witness for `error_row_lookup_returns_error`. -/
theorem error_row_lookup_returns_error_witness :
    get_now_playing_db
        (some { status := TrackStatus.error, fileName := some "old.opus" })
        ["old.opus"] =
      { respStatus := TrackStatus.error,
        newDb := some { status := TrackStatus.error, fileName := some "old.opus" },
        dispatched := false } :=
  error_row_lookup_returns_error
    { status := TrackStatus.error, fileName := some "old.opus" } ["old.opus"] rfl

/-! ## Claim C3 — missing-file repair -/

/-- Claim C3: for every record with status `cached` whose `file_name` is
NULL or whose artifact is absent from the music directory, lookup resets
the row to status `caching` with `file_name` cleared, dispatches a
Fetcher, and returns status `caching` (src/main.py lines 261-276). -/
theorem missing_file_repair (r : TrackRecord) (disk : List String)
    (hc : r.status = TrackStatus.cached)
    (hm : ∀ fn, r.fileName = some fn → disk.contains fn = false) :
    get_now_playing_db (some r) disk =
      { respStatus := TrackStatus.caching,
        newDb := some { status := TrackStatus.caching, fileName := none },
        dispatched := true } := by
  have hmiss : fileIsMissing (some r) disk = true := by
    cases hfn : r.fileName with
    | none => simp [fileIsMissing, hc, hfn]
    | some fn =>
      have h := hm fn hfn
      simp [fileIsMissing, hc, hfn]
      simpa using h
  simp [get_now_playing_db, hmiss]

/-- Witness for `missing_file_repair`: the ghost row of spec scenario 7. -/
theorem missing_file_repair_witness :
    get_now_playing_db
        (some { status := TrackStatus.cached, fileName := some "ghost.opus" }) [] =
      { respStatus := TrackStatus.caching,
        newDb := some { status := TrackStatus.caching, fileName := none },
        dispatched := true } :=
  missing_file_repair
    { status := TrackStatus.cached, fileName := some "ghost.opus" } [] rfl
    (fun _ _ => rfl)

end AudioProxy

namespace AudioProxy

/-! ## Claim C4 — range response correctness -/

/-- Claim C4: for a GET on an existing artifact with a `Range` header the
regex parses to `(start, end?)`, where a missing end defaults to
`file_size - 1`, and with `start <= end < file_size`, the response is 206
with `Content-Length = end - start + 1`, `Content-Range:
bytes start-end/size`, `Accept-Ranges: bytes`, and the body equal to the
byte slice from `start` to `end` inclusive (src/main.py lines 363-382). -/
theorem range_response_correct (file : List Nat) (hd : String) (s : Nat)
    (eo : Option Nat) (e : Int)
    (hp : searchBytesRange hd.data = some (s, eo))
    (he : e = (match eo with
               | some x => (x : Int)
               | none => (file.length : Int) - 1))
    (h1 : (s : Int) ≤ e) (h2 : e < (file.length : Int)) :
    stream_track file (some hd) =
      { status := 206
        body := (file.drop s).take (e - s + 1).toNat
        contentLength := some (e - s + 1)
        contentRange := some ((s : Int), e, (file.length : Int))
        acceptRanges := true } := by
  have hne : hd ≠ "" := by
    intro h0
    rw [h0] at hp
    have hemp : searchBytesRange "".data = none := rfl
    rw [hemp] at hp
    simp at hp
  cases eo with
  | none =>
    simp only at he
    subst he
    simp only [stream_track, hp]
    rw [if_neg hne]
    rw [if_neg (by omega)]
    simp [pyRead]
    omega
  | some x =>
    simp only at he
    subst he
    simp only [stream_track, hp]
    rw [if_neg hne]
    rw [if_neg (by omega)]
    simp [pyRead]
    omega

/-- Witness for `range_response_correct`: `bytes=1-3` on a 5-byte file. -/
theorem range_response_correct_witness :
    stream_track [10, 20, 30, 40, 50] (some "bytes=1-3") =
      { status := 206, body := [20, 30, 40], contentLength := some 3,
        contentRange := some (1, 3, 5), acceptRanges := true } := by
  have h := range_response_correct [10, 20, 30, 40, 50] "bytes=1-3" 1 (some 3) 3
    (by decide) (by decide) (by decide) (by decide)
  rw [h]
  decide

/-! ## Claim C5 — unsatisfiable ranges rejected -/

/-- Claim C5, counterexample: `bytes=5-3` on a 10-byte artifact has
`start > end`, which the claim says must yield 416 and never a 2xx; the
code checks only `start >= file_size or end >= file_size` (line 371), so
it answers 206 — with `Content-Length: -1` (and a body read by
`f.read(-1)`, i.e. the rest of the file). -/
theorem inverted_range_not_rejected_cex :
    (stream_track (List.replicate 10 0) (some "bytes=5-3")).status = 206 ∧
    (stream_track (List.replicate 10 0) (some "bytes=5-3")).status ≠ 416 ∧
    (stream_track (List.replicate 10 0) (some "bytes=5-3")).contentLength
      = some (-1) := by decide

/-- Claim C5 as amended: for every parsed range, the response is 416 if
and only if `start >= file_size` or `end >= file_size` (with a missing
end defaulting to `file_size - 1`); `start > end` alone is not
rejected. -/
theorem range_416_iff_start_or_end_past_eof (file : List Nat) (hd : String)
    (s : Nat) (eo : Option Nat) (e : Int)
    (hp : searchBytesRange hd.data = some (s, eo))
    (he : e = (match eo with
               | some x => (x : Int)
               | none => (file.length : Int) - 1)) :
    (stream_track file (some hd)).status = 416 ↔
      ((file.length : Int) ≤ (s : Int) ∨ (file.length : Int) ≤ e) := by
  have hne : hd ≠ "" := by
    intro h0
    rw [h0] at hp
    have hemp : searchBytesRange "".data = none := rfl
    rw [hemp] at hp
    simp at hp
  cases eo with
  | none =>
    simp only at he
    subst he
    simp only [stream_track, hp]
    rw [if_neg hne]
    by_cases hb : ((file.length : Int) ≤ (s : Int)
        ∨ (file.length : Int) ≤ (file.length : Int) - 1)
    · rw [if_pos hb]
      simpa using hb
    · rw [if_neg hb]
      simp only []
      constructor
      · intro h; omega
      · intro h; exact absurd h hb
  | some x =>
    simp only at he
    subst he
    simp only [stream_track, hp]
    rw [if_neg hne]
    by_cases hb : ((file.length : Int) ≤ (s : Int)
        ∨ (file.length : Int) ≤ (x : Int))
    · rw [if_pos hb]
      simpa using hb
    · rw [if_neg hb]
      simp only []
      constructor
      · intro h; omega
      · intro h; exact absurd h hb

/-- Witness for `range_416_iff_start_or_end_past_eof`: the spec test
`bytes=999999999-` on a small artifact is a 416. -/
theorem range_416_iff_witness :
    (stream_track [0, 0] (some "bytes=999999999-")).status = 416 :=
  (range_416_iff_start_or_end_past_eof [0, 0] "bytes=999999999-"
    999999999 none 1 rfl (by decide)).mpr (by decide)

/-! ## Claim C10 — malformed Range headers serve the whole file as 206 -/

/-- Claim C10, counterexample: two present-but-non-matching `Range`
headers the claim says must be 206 with the whole file.  On an empty
(zero-byte) existing artifact, a malformed header leaves `start = 0` and
`end = -1`, and the guard `start >= file_size` (line 371) fires: the
response is 416.  And on a non-empty artifact, a present but empty
`Range` header (which matches nothing) is falsy, so the test
`if not range_header` (line 364) serves it as a plain 200 `send_file`,
not a 206. -/
theorem empty_file_malformed_range_cex :
    searchBytesRange "garbage".data = none ∧
    (stream_track [] (some "garbage")).status = 416 ∧
    (stream_track [] (some "garbage")).status ≠ 206 ∧
    searchBytesRange "".data = none ∧
    (stream_track [7, 8] (some "")).status = 200 ∧
    (stream_track [7, 8] (some "")).status ≠ 206 := by decide

/-- Claim C10 as amended: on a non-empty existing artifact, a `Range`
header that is present and non-empty but in which the regex
`bytes=(\d+)-(\d*)` finds no match falls back to `start = 0`,
`end = file_size - 1` and is served as a 206 whose body is the entire
file; a present but empty `Range` header is falsy at line 364 and is
served like a missing one, a 200 `send_file` of the whole file (and on
an empty artifact a non-empty malformed header is a 416). -/
theorem malformed_range_serves_whole_file (file : List Nat) (hd : String)
    (hp : searchBytesRange hd.data = none) (hs : 1 ≤ file.length)
    (hne : hd ≠ "") :
    stream_track file (some hd) =
      { status := 206, body := file,
        contentLength := some (file.length : Int),
        contentRange := some (0, (file.length : Int) - 1, (file.length : Int)),
        acceptRanges := true }
    ∧ stream_track file (some "") = send_file file := by
  constructor
  · simp only [stream_track, hp]
    rw [if_neg hne]
    rw [if_neg (by omega)]
    simp [pyRead]
  · simp [stream_track]

/-- Witness for `malformed_range_serves_whole_file`. -/
theorem malformed_range_serves_whole_file_witness :
    stream_track [7, 8] (some "garbage") =
      { status := 206, body := [7, 8], contentLength := some 2,
        contentRange := some (0, 1, 2), acceptRanges := true } ∧
    stream_track [7, 8] (some "") =
      { status := 200, body := [7, 8], contentLength := some 2,
        contentRange := none, acceptRanges := false } := by
  have h := malformed_range_serves_whole_file [7, 8] "garbage"
    (by decide) (by decide) (by decide)
  constructor
  · rw [h.1]
    decide
  · rw [h.2]
    decide

end AudioProxy

namespace AudioProxy

/-! ## Claim C6 — path containment -/

/-- Claim C6, counterexample: the route accepts the separator-free name
`.`, whose resolved absolute path is the artifact directory itself — not
a descendant of it — yet the guard at src/main.py lines 344-345 does not
fire, because `startswith` also accepts equality; the handler goes on to
the filesystem instead of answering 403. -/
theorem dot_name_passes_containment_cex :
    routeAccepts "." = true ∧
    strictDescendant (resolvedComps ".") musicDirComps = false ∧
    stream_track_rejects "." = false := by decide

/-- Claim C6 as amended: names with path separators never reach the
handler (the route matches one segment), and among the separator-free
names the guard rejects with 403 exactly those whose resolved path does
not extend the artifact-directory path — that is, exactly the name `..`;
the resolved path equal to the directory itself (name `.`) is not
rejected. -/
theorem containment_rejects_iff_dotdot (name : String)
    (hsep : name.data.contains '/' = false) (hne : name ≠ "") :
    (stream_track_rejects name = true ↔ name = "..") := by
  by_cases h1 : name = "."
  · subst h1
    have : stream_track_rejects "." = false := by decide
    simp [this]
  · by_cases h2 : name = ".."
    · subst h2
      have : stream_track_rejects ".." = true := by decide
      simp [this]
    · have hres : resolvedComps name = musicDirComps ++ [name] := by
        simp [resolvedComps, h1, h2]
      have hrender : renderAbs (musicDirComps ++ [name])
          = renderAbs musicDirComps ++ "/" ++ name := by
        simp [renderAbs, List.foldl_append]
      have hrej : stream_track_rejects name = false := by
        simp only [stream_track_rejects, hres, hrender]
        rw [String.data_append, String.data_append]
        simp [charPrefix_append]
      simp [hrej, h2]

/-- Witness for `containment_rejects_iff_dotdot`: `..` is rejected, an
ordinary file name is not. -/
theorem containment_rejects_iff_dotdot_witness :
    (stream_track_rejects ".." = true ↔ ".." = "..") ∧
    (stream_track_rejects "track.opus" = true ↔ "track.opus" = "..") :=
  ⟨containment_rejects_iff_dotdot ".." (by decide) (by decide),
   containment_rejects_iff_dotdot "track.opus" (by decide) (by decide)⟩

/-! ## Claim C7 — eviction policy -/

/-- Claim C7, counterexample: a directory whose byte sum equals
`CACHE_LIMIT_BYTES` exactly, with a deletable cached row available.  The
claim says the sweep deletes (total `>= LIMIT`) and ends `<= TARGET`; the
code tests `total_size <= CACHE_LIMIT_BYTES` (line 128) and returns
without deleting anything, leaving the total above the target. -/
theorem cleanup_at_exact_limit_noop_cex :
    totalSize [("big.opus", CACHE_LIMIT_BYTES)] = CACHE_LIMIT_BYTES ∧
    CACHE_TARGET_BYTES < totalSize [("big.opus", CACHE_LIMIT_BYTES)] ∧
    cleanup_cache [("big.opus", CACHE_LIMIT_BYTES)]
        [{ fileName := some "big.opus", status := TrackStatus.cached,
           lastAccessedAt := 0 }] =
      ([("big.opus", CACHE_LIMIT_BYTES)],
       [{ fileName := some "big.opus", status := TrackStatus.cached,
          lastAccessedAt := 0 }]) := by decide

/-- Claim C7 as amended: the sweep is a no-op whenever the directory
total is at most `CACHE_LIMIT_BYTES` (strictly-greater triggers it); when
it runs, victims come from the `cached` rows in ascending
`last_accessed_at` order with NULL `file_name` rows skipped (the
`victimList` inside `cleanup_cache`), and provided those victims have
enough on-disk bytes to cover `total - CACHE_TARGET_BYTES`, the total on
completion is at most `CACHE_TARGET_BYTES`. -/
theorem cleanup_cache_policy (disk : List (String × Nat)) (rows : List EvictRow) :
    (totalSize disk ≤ CACHE_LIMIT_BYTES → cleanup_cache disk rows = (disk, rows))
    ∧ (CACHE_LIMIT_BYTES < totalSize disk →
        totalSize disk - CACHE_TARGET_BYTES
            ≤ availableBytes (victimList rows) disk →
        totalSize (cleanup_cache disk rows).1 ≤ CACHE_TARGET_BYTES) := by
  constructor
  · intro hle
    simp [cleanup_cache, hle]
  · intro hgt hav
    have hspec := cleanupLoop_spec (victimList rows) disk rows 0
      (totalSize disk - CACHE_TARGET_BYTES)
    have h1 := hspec.1
    have h2 := hspec.2
    have hTL : CACHE_TARGET_BYTES < CACHE_LIMIT_BYTES := by
      simp [CACHE_TARGET_BYTES, CACHE_LIMIT_BYTES]
    simp only [cleanup_cache]
    rw [if_neg (by omega)]
    change totalSize (cleanupLoop (victimList rows) disk rows 0
      (totalSize disk - CACHE_TARGET_BYTES)).1 ≤ CACHE_TARGET_BYTES
    rcases h2 with h | h
    · omega
    · omega

/-- Witness for `cleanup_cache_policy`: a 2 GiB directory is left alone;
a 4 GiB directory of two cached 2 GiB artifacts is swept below the
target. -/
theorem cleanup_cache_policy_witness :
    cleanup_cache [("quiet.opus", 2147483648)] [] = ([("quiet.opus", 2147483648)], [])
    ∧ totalSize (cleanup_cache
        [("a.opus", 2147483648), ("b.opus", 2147483648)]
        [{ fileName := some "a.opus", status := TrackStatus.cached, lastAccessedAt := 5 },
         { fileName := some "b.opus", status := TrackStatus.cached, lastAccessedAt := 3 }]).1
      ≤ CACHE_TARGET_BYTES :=
  ⟨(cleanup_cache_policy [("quiet.opus", 2147483648)] []).1 (by decide),
   (cleanup_cache_policy [("a.opus", 2147483648), ("b.opus", 2147483648)]
      [{ fileName := some "a.opus", status := TrackStatus.cached, lastAccessedAt := 5 },
       { fileName := some "b.opus", status := TrackStatus.cached, lastAccessedAt := 3 }]).2
     (by decide) (by decide)⟩

/-! ## Claim C8 — play request validation -/

/-- Claim C8 is contradicted by the code on missing and non-string
fields: the list at src/main.py line 321 is built eagerly, so
`song_name.strip()` runs even when `isinstance(song_name, str)` is false
and raises `AttributeError`, which surfaces as a 500, not the 400 the
claim (and the error message on line 322 itself) promises.  Empty string
fields do get 400 and a non-JSON content type does get 415. -/
theorem play_missing_field_raises_500 :
    get_streamable_track_validate (some [("artist", JVal.jstr "Pink Floyd")]) =
      PlayOutcome.attrError ∧
    playEarlyStatus (some [("artist", JVal.jstr "Pink Floyd")]) = some 500 ∧
    playEarlyStatus (some [("artist", JVal.jstr "Pink Floyd"),
      ("song_name", JVal.jnum 5)]) = some 500 ∧
    playEarlyStatus (some [("artist", JVal.jstr "Pink Floyd"),
      ("song_name", JVal.jstr " ")]) = some 400 ∧
    playEarlyStatus none = some 415 := by decide

/-! ## Claim C9 — connection-pool discipline -/

/-- Claim C9 is contradicted by `cleanup_cache`: `return_db_connection`
(src/main.py line 168) sits on the straight-line path, not in a
`finally`, so when the SELECT at line 140 raises, the handler logs in the
outer `except` and exits without returning the drawn connection — the
pooled connection leaks.  On the non-raising path it is returned. -/
theorem cleanup_leaks_connection_on_db_error :
    (cleanup_cache_run true [("a.opus", 4 * 1024 * 1024 * 1024)] []).connDrawn
      = true ∧
    (cleanup_cache_run true [("a.opus", 4 * 1024 * 1024 * 1024)] []).connReturned
      = false ∧
    (cleanup_cache_run false [("a.opus", 4 * 1024 * 1024 * 1024)] []).connReturned
      = true := by decide

end AudioProxy
